import Mathlib

/-!
Verification of the configuration core of DeSyDe (src/src/settings/config.hpp):
the staged-optimization step machinery, the criteria queries, the presolver
hand-off rule and the enumerated option domains.  The data model (the enums,
`Settings` and `PresolverResults`) is translated from the header; the member
function bodies live in a translation unit that is not part of the excerpt, so
their behaviour is modelled from the specification, as marked on each
definition.
-/

namespace DeSyDe

/-- Enum `Config::CPModels` from config.hpp. -/
inductive CPModels
  | NONECP
  | SDF
  | SDF_PR_ONLINE
deriving DecidableEq

/-- Enum `Config::ThroughputPropagator` from config.hpp. -/
inductive ThroughputPropagator
  | SSE
  | MCR
deriving DecidableEq

/-- Enum `Config::OutputFileType` from config.hpp. -/
inductive OutputFileType
  | ALL_OUT
  | TXT
  | CSV
  | CSV_MOST
  | XML
deriving DecidableEq

/-- Enum `Config::OutputPrintFrequency` from config.hpp. -/
inductive OutputPrintFrequency
  | ALL_SOL
  | LAST
  | EVERY_n
  | FIRSTandLAST
deriving DecidableEq

/-- Enum `Config::PresolverModels` from config.hpp. -/
inductive PresolverModels
  | NO_PRE
  | ONE_PROC_MAPPINGS
deriving DecidableEq

/-- Enum `Config::MultiStepHeuristics` from config.hpp. -/
inductive MultiStepHeuristics
  | NO_HEURISTIC
  | TODAES
deriving DecidableEq

/-- Enum `Config::SearchTypes` from config.hpp. -/
inductive SearchTypes
  | NONESEARCH
  | FIRST
  | ALL
  | OPTIMIZE
  | OPTIMIZE_IT
  | GIST_ALL
  | GIST_OPT
deriving DecidableEq

/-- Enum `Config::OptCriterion` from config.hpp. -/
inductive OptCriterion
  | NONE
  | POWER
  | THROUGHPUT
  | LATENCY
deriving DecidableEq

/-- Struct `Config::SolutionValues` from config.hpp: an elapsed duration
(modelled as clock ticks) plus a sequence of integer solution values. -/
structure SolutionValues where
  time : Nat
  values : List Int
deriving DecidableEq

/-- Struct `Config::Settings` from config.hpp, field for field.  Machine
integers are modelled as `Nat`; `std::vector` and `std::string` as `List` and
`String`.  The in-class initializers `optimizationStep=0` and
`configTDN=false` are kept as default field values. -/
structure Settings where
  inputs_paths : List String
  output_path : String
  model : CPModels
  pre_models : List PresolverModels
  pre_heuristics : List MultiStepHeuristics
  search : SearchTypes
  pre_search : SearchTypes
  pre_multi_step_search : SearchTypes
  optimizationStep : Nat := 0
  criteria : List OptCriterion
  timeout_first : Nat
  timeout_all : Nat
  pre_timeout_first : Nat
  pre_timeout_all : Nat
  luby_scale : Nat
  threads : Nat
  noGoodDepth : Nat
  th_prop : ThroughputPropagator
  out_file_type : OutputFileType
  out_print_freq : OutputPrintFrequency
  printMetrics : List OptCriterion
  configTDN : Bool := false
deriving DecidableEq

/-- Struct `Config::PresolverResults` from config.hpp.  `oneProcMappings` is a
sequence of candidate mapping combinations, each a tuple of an `int` and a
sequence of (task, processor) `int` pairs, exactly as the
`vector<tuple<int, vector<tuple<int,int>>>>` in the header. -/
structure PresolverResults where
  it_mapping : Nat
  oneProcMappings : List (Int × List (Int × Int))
  optResults : List SolutionValues
  printResults : List SolutionValues
  presolver_delay : Nat
deriving DecidableEq

/-- The state of a `Config` object: the private `settings_` record and the
`shared_ptr<PresolverResults> pre_results` handle, modelled as an `Option`
(`none` is the empty/null shared handle). -/
structure ConfigState where
  settings_ : Settings
  pre_results : Option PresolverResults
deriving DecidableEq

/-- The error kinds of the spec (FormatError, IOError, StateError,
RangeError). -/
inductive ConfigError
  | formatError
  | ioError
  | stateError
  | rangeError
deriving DecidableEq

/-- Modelled from the spec: `governingCriterion(step)` of the CriteriaResolver
(the body of the step-qualified criterion lookup is in the missing config.cpp).
Returns the criterion at position `step`, failing with RangeError when
`step >= length(criteria)`. -/
def governingCriterion (s : Settings) (step : Nat) : Except ConfigError OptCriterion :=
  if h : step < s.criteria.length then Except.ok (s.criteria.get ⟨step, h⟩)
  else Except.error ConfigError.rangeError

/-- Modelled from the spec: `Config::doOptimizeThput(size_t step)` (body in the
missing config.cpp).  True iff the governing criterion at `step` is
THROUGHPUT; out-of-range steps fail with RangeError. -/
def doOptimizeThputAt (s : Settings) (step : Nat) : Except ConfigError Bool :=
  match governingCriterion s step with
  | Except.ok c => Except.ok (decide (c = OptCriterion.THROUGHPUT))
  | Except.error e => Except.error e

/-- Modelled from the spec: `Config::doOptimizePower(size_t step)` (body in the
missing config.cpp), symmetric to `doOptimizeThputAt`. -/
def doOptimizePowerAt (s : Settings) (step : Nat) : Except ConfigError Bool :=
  match governingCriterion s step with
  | Except.ok c => Except.ok (decide (c = OptCriterion.POWER))
  | Except.error e => Except.error e

/-- Modelled from the spec: the step-implicit `Config::doOptimizeThput()`
(body in the missing config.cpp): it reads the criterion at the current
cursor `optimizationStep` directly. -/
def doOptimizeThputCur (cfg : ConfigState) : Except ConfigError Bool :=
  if h : cfg.settings_.optimizationStep < cfg.settings_.criteria.length then
    Except.ok (decide (cfg.settings_.criteria.get ⟨cfg.settings_.optimizationStep, h⟩
      = OptCriterion.THROUGHPUT))
  else Except.error ConfigError.rangeError

/-- Modelled from the spec: the step-implicit `Config::doOptimizePower()`
(body in the missing config.cpp). -/
def doOptimizePowerCur (cfg : ConfigState) : Except ConfigError Bool :=
  if h : cfg.settings_.optimizationStep < cfg.settings_.criteria.length then
    Except.ok (decide (cfg.settings_.criteria.get ⟨cfg.settings_.optimizationStep, h⟩
      = OptCriterion.POWER))
  else Except.error ConfigError.rangeError

/-- Modelled from the spec: `Config::incOptimizationStep()` (body in the
missing config.cpp) advances the step cursor by exactly one and touches
nothing else. -/
def incOptimizationStep (cfg : ConfigState) : ConfigState :=
  { cfg with settings_ :=
      { cfg.settings_ with optimizationStep := cfg.settings_.optimizationStep + 1 } }

/-- Modelled from the spec: `Config::setPresolverResults` (body in the missing
config.cpp) stores the shared handle in `pre_results`. -/
def setPresolverResults (cfg : ConfigState) (p : PresolverResults) : ConfigState :=
  { cfg with pre_results := some p }

/-- Modelled from the spec: `Config::getPresolverResults` (body in the missing
config.cpp) returns the stored handle, the empty handle (`none`) if never
set. -/
def getPresolverResults (cfg : ConfigState) : Option PresolverResults :=
  cfg.pre_results

/-- Modelled from the spec: `Config::is_presolved` (body in the missing
config.cpp) is true iff the `pre_results` handle has been set. -/
def is_presolved (cfg : ConfigState) : Bool :=
  cfg.pre_results.isSome

/-- Modelled from the spec: `Config::doPresolve` (body in the missing
config.cpp) is true iff `pre_models` is non-empty and does not consist solely
of the NO_PRE selector. -/
def doPresolve (s : Settings) : Bool :=
  !s.pre_models.isEmpty && !(s.pre_models.all (fun m => decide (m = PresolverModels.NO_PRE)))

/-- The constraints the main search model receives from the presolver
hand-off: at most one enforced combination and a list of forbidden
combinations. -/
structure HandOffConstraints where
  enforced : Option (Int × List (Int × Int))
  forbidden : List (Int × List (Int × Int))
deriving DecidableEq

/-- Modelled from the spec (and the doc comment on `it_mapping` in
config.hpp: smaller than the size means enforce that mapping, at least the
size means forbid all): the consumer of `PresolverResults` in the CP model is
in a missing translation unit.  With `n = length oneProcMappings`, if
`it_mapping < n` the combination at index `it_mapping` is enforced and nothing
is forbidden; otherwise nothing is enforced and every combination is
forbidden. -/
def presolverHandOff (p : PresolverResults) : HandOffConstraints :=
  if h : p.it_mapping < p.oneProcMappings.length then
    { enforced := some (p.oneProcMappings.get ⟨p.it_mapping, h⟩), forbidden := [] }
  else
    { enforced := none, forbidden := p.oneProcMappings }

/-- Modelled from the spec: the token domain of `Config::setModel` (body in
the missing config.cpp), mapping the recognized tokens to `CPModels`. -/
def parseModel (tok : String) : Option CPModels :=
  if tok = "none" then some CPModels.NONECP
  else if tok = "single-rate" then some CPModels.SDF
  else if tok = "single-rate-with-online-presolve" then some CPModels.SDF_PR_ONLINE
  else none

/-- Modelled from the spec: the token domain of `Config::setSearch` (body in
the missing config.cpp). -/
def parseSearchType (tok : String) : Option SearchTypes :=
  if tok = "none" then some SearchTypes.NONESEARCH
  else if tok = "first" then some SearchTypes.FIRST
  else if tok = "all" then some SearchTypes.ALL
  else if tok = "optimize" then some SearchTypes.OPTIMIZE
  else if tok = "optimize-iterative" then some SearchTypes.OPTIMIZE_IT
  else if tok = "gist-all" then some SearchTypes.GIST_ALL
  else if tok = "gist-optimal" then some SearchTypes.GIST_OPT
  else none

/-- Modelled from the spec: the token domain of `Config::setCriteria` (body in
the missing config.cpp). -/
def parseCriterion (tok : String) : Option OptCriterion :=
  if tok = "none" then some OptCriterion.NONE
  else if tok = "power" then some OptCriterion.POWER
  else if tok = "throughput" then some OptCriterion.THROUGHPUT
  else if tok = "latency" then some OptCriterion.LATENCY
  else none

/-- Modelled from the spec: the token domain of `Config::setPresolverModel`
(body in the missing config.cpp). -/
def parsePresolverModel (tok : String) : Option PresolverModels :=
  if tok = "no-presolve" then some PresolverModels.NO_PRE
  else if tok = "one-processor-mappings" then some PresolverModels.ONE_PROC_MAPPINGS
  else none

/-- Modelled from the spec: the token domain of `Config::setHeuristic` (body
in the missing config.cpp). -/
def parseHeuristic (tok : String) : Option MultiStepHeuristics :=
  if tok = "no-heuristic" then some MultiStepHeuristics.NO_HEURISTIC
  else if tok = "staged-heuristic" then some MultiStepHeuristics.TODAES
  else none

/-- Modelled from the spec: the token domain of `Config::setThPropagator`
(body in the missing config.cpp). -/
def parseThPropagator (tok : String) : Option ThroughputPropagator :=
  if tok = "single-step-estimate" then some ThroughputPropagator.SSE
  else if tok = "max-cycle-ratio" then some ThroughputPropagator.MCR
  else none

/-- Modelled from the spec: the token domain of `Config::setOutputFileType`
(body in the missing config.cpp). -/
def parseOutputFileType (tok : String) : Option OutputFileType :=
  if tok = "all" then some OutputFileType.ALL_OUT
  else if tok = "text" then some OutputFileType.TXT
  else if tok = "csv" then some OutputFileType.CSV
  else if tok = "csv-most" then some OutputFileType.CSV_MOST
  else if tok = "xml" then some OutputFileType.XML
  else none

/-- Modelled from the spec: the token domain of
`Config::setOutputPrintFrequency` (body in the missing config.cpp). -/
def parseOutputPrintFrequency (tok : String) : Option OutputPrintFrequency :=
  if tok = "all-solutions" then some OutputPrintFrequency.ALL_SOL
  else if tok = "last" then some OutputPrintFrequency.LAST
  else if tok = "every-n" then some OutputPrintFrequency.EVERY_n
  else if tok = "first-and-last" then some OutputPrintFrequency.FIRSTandLAST
  else none

/-- Modelled from the spec: `Config::setModel` (body in the missing
config.cpp).  An unrecognized token raises FormatError; no updated settings
record is produced, so the store is unmutated on error. -/
def setModel (s : Settings) (tok : String) : Except ConfigError Settings :=
  match parseModel tok with
  | some m => Except.ok { s with model := m }
  | none => Except.error ConfigError.formatError

/-- Modelled from the spec: `Config::setSearch` (body in the missing
config.cpp). -/
def setSearch (s : Settings) (tok : String) : Except ConfigError Settings :=
  match parseSearchType tok with
  | some v => Except.ok { s with search := v }
  | none => Except.error ConfigError.formatError

/-- Modelled from the spec: `Config::setThPropagator` (body in the missing
config.cpp). -/
def setThPropagator (s : Settings) (tok : String) : Except ConfigError Settings :=
  match parseThPropagator tok with
  | some v => Except.ok { s with th_prop := v }
  | none => Except.error ConfigError.formatError

/-- Modelled from the spec: `Config::setOutputFileType` (body in the missing
config.cpp). -/
def setOutputFileType (s : Settings) (tok : String) : Except ConfigError Settings :=
  match parseOutputFileType tok with
  | some v => Except.ok { s with out_file_type := v }
  | none => Except.error ConfigError.formatError

/-- Modelled from the spec: `Config::setOutputPrintFrequency` (body in the
missing config.cpp). -/
def setOutputPrintFrequency (s : Settings) (tok : String) : Except ConfigError Settings :=
  match parseOutputPrintFrequency tok with
  | some v => Except.ok { s with out_print_freq := v }
  | none => Except.error ConfigError.formatError

/-- Modelled from the spec: `Config::setCriteria` (body in the missing
config.cpp) resolves every token of the vector; any unrecognized token raises
FormatError and nothing is stored. -/
def setCriteria (s : Settings) (toks : List String) : Except ConfigError Settings :=
  match toks.mapM parseCriterion with
  | some cs => Except.ok { s with criteria := cs }
  | none => Except.error ConfigError.formatError

/-- Modelled from the spec: `Config::setPresolverModel` (body in the missing
config.cpp). -/
def setPresolverModel (s : Settings) (toks : List String) : Except ConfigError Settings :=
  match toks.mapM parsePresolverModel with
  | some vs => Except.ok { s with pre_models := vs }
  | none => Except.error ConfigError.formatError

/-- Modelled from the spec: `Config::setHeuristic` (body in the missing
config.cpp). -/
def setHeuristic (s : Settings) (toks : List String) : Except ConfigError Settings :=
  match toks.mapM parseHeuristic with
  | some vs => Except.ok { s with pre_heuristics := vs }
  | none => Except.error ConfigError.formatError

/-- Default-constructed settings record used for concrete evaluations. -/
def defaultSettings : Settings :=
  { inputs_paths := []
    output_path := ""
    model := CPModels.NONECP
    pre_models := []
    pre_heuristics := []
    search := SearchTypes.NONESEARCH
    pre_search := SearchTypes.NONESEARCH
    pre_multi_step_search := SearchTypes.NONESEARCH
    criteria := []
    timeout_first := 0
    timeout_all := 0
    pre_timeout_first := 0
    pre_timeout_all := 0
    luby_scale := 0
    threads := 1
    noGoodDepth := 0
    th_prop := ThroughputPropagator.SSE
    out_file_type := OutputFileType.ALL_OUT
    out_print_freq := OutputPrintFrequency.ALL_SOL
    printMetrics := [] }

/-- A freshly constructed configuration: default settings and an empty
presolver-results handle. -/
def initConfig : ConfigState :=
  { settings_ := defaultSettings, pre_results := none }

/-! Concrete states used to evaluate the theorems on explicit inputs. -/

/-- A presolver result with five candidate combinations and `it_mapping = 3`
(the enforce branch of the hand-off rule). -/
def presEnf : PresolverResults :=
  { it_mapping := 3
    oneProcMappings :=
      [(0, [(0, 0), (1, 0)]), (1, [(0, 1), (1, 1)]), (2, [(0, 2), (1, 2)]),
       (3, [(0, 3), (1, 3)]), (4, [(0, 4), (1, 4)])]
    optResults := []
    printResults := []
    presolver_delay := 0 }

/-- The same candidate combinations with `it_mapping = 5`, equal to their
number (the forbid-all branch of the hand-off rule). -/
def presForb : PresolverResults :=
  { presEnf with it_mapping := 5 }

/-- A configuration whose criteria sequence is THROUGHPUT, POWER, LATENCY. -/
def cfgTPL : ConfigState :=
  { settings_ := { defaultSettings with
      criteria := [OptCriterion.THROUGHPUT, OptCriterion.POWER, OptCriterion.LATENCY] }
    pre_results := none }

/-! Helper lemmas shared by the claim theorems. -/

/-- Iterating the step increment `k` times adds exactly `k` to the cursor. -/
theorem incOptimizationStep_iterate (k : Nat) (cfg : ConfigState) :
    (incOptimizationStep^[k] cfg).settings_.optimizationStep
      = cfg.settings_.optimizationStep + k := by
  induction k generalizing cfg with
  | zero => rfl
  | succ n ih =>
    rw [Function.iterate_succ_apply, ih]
    simp [incOptimizationStep]
    omega

/-- If some element of a list has no parse, the monadic map over the list
fails. -/
theorem mapM_eq_none_of_mem {α β : Type} (f : α → Option β) (l : List α) (a : α)
    (ha : a ∈ l) (hfa : f a = none) : l.mapM f = none := by
  induction l with
  | nil => cases ha
  | cons x xs ih =>
    rw [List.mapM_cons]
    rcases List.mem_cons.mp ha with h | h
    · subst h
      rw [hfa]
      rfl
    · cases hfx : f x with
      | none => rfl
      | some y =>
        rw [ih h]
        rfl

/-! The claims. -/

/-- Claim C1: for every `PresolverResults` with `n` candidate combinations,
if `it_mapping < n` the hand-off enforces exactly the combination at index
`it_mapping` and forbids nothing; if `it_mapping >= n` (including equality)
nothing is enforced and all `n` combinations are forbidden. -/
theorem presolver_handoff_rule (p : PresolverResults) :
    (∀ h : p.it_mapping < p.oneProcMappings.length,
      (presolverHandOff p).enforced = some (p.oneProcMappings.get ⟨p.it_mapping, h⟩) ∧
      (presolverHandOff p).forbidden = []) ∧
    (p.oneProcMappings.length ≤ p.it_mapping →
      (presolverHandOff p).enforced = none ∧
      (presolverHandOff p).forbidden = p.oneProcMappings) := by
  constructor
  · intro h
    simp [presolverHandOff, h]
  · intro h
    simp [presolverHandOff, Nat.not_lt.mpr h]

/-- Witness for C1: the enforce branch at `it_mapping = 3` of 5, and the
forbid-all branch at `it_mapping = 5` of 5. -/
theorem presolver_handoff_rule_witness :
    ((presolverHandOff presEnf).enforced
        = some (presEnf.oneProcMappings.get ⟨3, by decide⟩) ∧
      (presolverHandOff presEnf).forbidden = []) ∧
    ((presolverHandOff presForb).enforced = none ∧
      (presolverHandOff presForb).forbidden = presForb.oneProcMappings) :=
  ⟨(presolver_handoff_rule presEnf).1 (by decide),
   (presolver_handoff_rule presForb).2 (by decide)⟩

/-- Claim C2: for every step inside the criteria sequence, the step-qualified
throughput query answers true exactly when the criterion at that step is
THROUGHPUT, and symmetrically for POWER. -/
theorem step_query_iff_criterion (s : Settings) (step : Nat)
    (h : step < s.criteria.length) :
    (doOptimizeThputAt s step = Except.ok true ↔
      s.criteria.get ⟨step, h⟩ = OptCriterion.THROUGHPUT) ∧
    (doOptimizePowerAt s step = Except.ok true ↔
      s.criteria.get ⟨step, h⟩ = OptCriterion.POWER) := by
  simp [doOptimizeThputAt, doOptimizePowerAt, governingCriterion, dif_pos h]

/-- Witness for C2: step 0 of the criteria sequence THROUGHPUT, POWER,
LATENCY. -/
theorem step_query_iff_criterion_witness :
    (doOptimizeThputAt cfgTPL.settings_ 0 = Except.ok true ↔
      cfgTPL.settings_.criteria.get ⟨0, by decide⟩ = OptCriterion.THROUGHPUT) ∧
    (doOptimizePowerAt cfgTPL.settings_ 0 = Except.ok true ↔
      cfgTPL.settings_.criteria.get ⟨0, by decide⟩ = OptCriterion.POWER) :=
  step_query_iff_criterion cfgTPL.settings_ 0 (by decide)

/-- Claim C3: every call to `incOptimizationStep` increases the cursor by
exactly 1 (hence never decreases it), and from the initial cursor 0, calling
it `length(criteria) - 1` times makes the cursor the index of the last
criterion. -/
theorem inc_step_progress (cfg : ConfigState)
    (h0 : cfg.settings_.optimizationStep = 0)
    (_hn : 0 < cfg.settings_.criteria.length) :
    (∀ c : ConfigState,
      (incOptimizationStep c).settings_.optimizationStep
        = c.settings_.optimizationStep + 1 ∧
      c.settings_.optimizationStep
        < (incOptimizationStep c).settings_.optimizationStep) ∧
    (incOptimizationStep^[cfg.settings_.criteria.length - 1] cfg).settings_.optimizationStep
      = cfg.settings_.criteria.length - 1 := by
  refine ⟨fun c => ⟨rfl, Nat.lt_succ_self _⟩, ?_⟩
  rw [incOptimizationStep_iterate, h0, Nat.zero_add]

/-- Witness for C3: with three criteria and cursor 0, two increments land the
cursor on the last index, 2. -/
theorem inc_step_progress_witness :
    cfgTPL.settings_.optimizationStep = 0 ∧
    0 < cfgTPL.settings_.criteria.length ∧
    (incOptimizationStep^[cfgTPL.settings_.criteria.length - 1] cfgTPL).settings_.optimizationStep
      = cfgTPL.settings_.criteria.length - 1 :=
  ⟨rfl, by decide, (inc_step_progress cfgTPL rfl (by decide)).2⟩

/-- Claim C4: every step-qualified criterion query at a step outside the
criteria sequence fails with RangeError instead of returning a default
answer. -/
theorem step_query_out_of_range (s : Settings) (step : Nat)
    (h : s.criteria.length ≤ step) :
    governingCriterion s step = Except.error ConfigError.rangeError ∧
    doOptimizeThputAt s step = Except.error ConfigError.rangeError ∧
    doOptimizePowerAt s step = Except.error ConfigError.rangeError := by
  simp [governingCriterion, doOptimizeThputAt, doOptimizePowerAt, Nat.not_lt.mpr h]

/-- Witness for C4: step 3 is out of range for the three-element criteria
sequence. -/
theorem step_query_out_of_range_witness :
    governingCriterion cfgTPL.settings_ 3 = Except.error ConfigError.rangeError ∧
    doOptimizeThputAt cfgTPL.settings_ 3 = Except.error ConfigError.rangeError ∧
    doOptimizePowerAt cfgTPL.settings_ 3 = Except.error ConfigError.rangeError :=
  step_query_out_of_range cfgTPL.settings_ 3 (by decide)

/-- Claim C5: `doPresolve` is true exactly when the presolver-model sequence
is non-empty and does not consist solely of NO_PRE. -/
theorem do_presolve_iff (s : Settings) :
    doPresolve s = true ↔
      (s.pre_models ≠ [] ∧ ¬ (∀ m ∈ s.pre_models, m = PresolverModels.NO_PRE)) := by
  simp [doPresolve, List.isEmpty_iff, List.all_eq_true]

/-- Claim C6: `is_presolved` is false while the handle is unset and true
immediately after `setPresolverResults`, whatever is stored. -/
theorem is_presolved_spec (cfg : ConfigState) (p : PresolverResults)
    (h : cfg.pre_results = none) :
    is_presolved cfg = false ∧
    is_presolved (setPresolverResults cfg p) = true := by
  simp [is_presolved, setPresolverResults, h]

/-- Witness for C6: the fresh configuration is not presolved; after storing a
result it is. -/
theorem is_presolved_spec_witness :
    is_presolved initConfig = false ∧
    is_presolved (setPresolverResults initConfig presEnf) = true :=
  is_presolved_spec initConfig presEnf rfl

/-- Claim C7: `getPresolverResults` after `setPresolverResults p` returns
exactly the stored handle `p`; without a prior set it returns the empty
handle. -/
theorem presolver_results_roundtrip (cfg : ConfigState) (p : PresolverResults) :
    getPresolverResults (setPresolverResults cfg p) = some p ∧
    (cfg.pre_results = none → getPresolverResults cfg = none) := by
  exact ⟨rfl, fun h => h⟩

/-- Witness for C7: storing a concrete result in the fresh configuration and
reading it back. -/
theorem presolver_results_roundtrip_witness :
    getPresolverResults (setPresolverResults initConfig presEnf) = some presEnf ∧
    getPresolverResults initConfig = none :=
  ⟨(presolver_results_roundtrip initConfig presEnf).1,
   (presolver_results_roundtrip initConfig presEnf).2 rfl⟩

/-- Claim C8: in every configuration state, the step-implicit queries agree
with the step-qualified queries evaluated at the current cursor. -/
theorem current_step_query_equiv (cfg : ConfigState) :
    doOptimizeThputCur cfg
      = doOptimizeThputAt cfg.settings_ cfg.settings_.optimizationStep ∧
    doOptimizePowerCur cfg
      = doOptimizePowerAt cfg.settings_ cfg.settings_.optimizationStep := by
  constructor
  · unfold doOptimizeThputCur doOptimizeThputAt governingCriterion
    by_cases h : cfg.settings_.optimizationStep < cfg.settings_.criteria.length <;>
      simp [h]
  · unfold doOptimizePowerCur doOptimizePowerAt governingCriterion
    by_cases h : cfg.settings_.optimizationStep < cfg.settings_.criteria.length <;>
      simp [h]

/-- Claim C10: `incOptimizationStep` changes only the `optimizationStep`
field; every other settings field and the presolver-results handle are
unchanged. -/
theorem inc_step_frame (cfg : ConfigState) :
    (incOptimizationStep cfg).settings_.inputs_paths = cfg.settings_.inputs_paths ∧
    (incOptimizationStep cfg).settings_.output_path = cfg.settings_.output_path ∧
    (incOptimizationStep cfg).settings_.model = cfg.settings_.model ∧
    (incOptimizationStep cfg).settings_.pre_models = cfg.settings_.pre_models ∧
    (incOptimizationStep cfg).settings_.pre_heuristics = cfg.settings_.pre_heuristics ∧
    (incOptimizationStep cfg).settings_.search = cfg.settings_.search ∧
    (incOptimizationStep cfg).settings_.pre_search = cfg.settings_.pre_search ∧
    (incOptimizationStep cfg).settings_.pre_multi_step_search
      = cfg.settings_.pre_multi_step_search ∧
    (incOptimizationStep cfg).settings_.criteria = cfg.settings_.criteria ∧
    (incOptimizationStep cfg).settings_.timeout_first = cfg.settings_.timeout_first ∧
    (incOptimizationStep cfg).settings_.timeout_all = cfg.settings_.timeout_all ∧
    (incOptimizationStep cfg).settings_.pre_timeout_first
      = cfg.settings_.pre_timeout_first ∧
    (incOptimizationStep cfg).settings_.pre_timeout_all
      = cfg.settings_.pre_timeout_all ∧
    (incOptimizationStep cfg).settings_.luby_scale = cfg.settings_.luby_scale ∧
    (incOptimizationStep cfg).settings_.threads = cfg.settings_.threads ∧
    (incOptimizationStep cfg).settings_.noGoodDepth = cfg.settings_.noGoodDepth ∧
    (incOptimizationStep cfg).settings_.th_prop = cfg.settings_.th_prop ∧
    (incOptimizationStep cfg).settings_.out_file_type = cfg.settings_.out_file_type ∧
    (incOptimizationStep cfg).settings_.out_print_freq = cfg.settings_.out_print_freq ∧
    (incOptimizationStep cfg).settings_.printMetrics = cfg.settings_.printMetrics ∧
    (incOptimizationStep cfg).settings_.configTDN = cfg.settings_.configTDN ∧
    (incOptimizationStep cfg).pre_results = cfg.pre_results :=
  ⟨rfl, rfl, rfl, rfl, rfl, rfl, rfl, rfl, rfl, rfl, rfl, rfl, rfl, rfl, rfl,
   rfl, rfl, rfl, rfl, rfl, rfl, rfl⟩

/-- Claim C9: for every enumerated option domain, an unrecognized token makes
the setter fail with FormatError; since the setter then produces no updated
settings record, the store is left unmutated. -/
theorem unknown_token_format_error (s : Settings) (tok t : String)
    (toks : List String) :
    (parseModel tok = none →
      setModel s tok = Except.error ConfigError.formatError) ∧
    (parseSearchType tok = none →
      setSearch s tok = Except.error ConfigError.formatError) ∧
    (parseThPropagator tok = none →
      setThPropagator s tok = Except.error ConfigError.formatError) ∧
    (parseOutputFileType tok = none →
      setOutputFileType s tok = Except.error ConfigError.formatError) ∧
    (parseOutputPrintFrequency tok = none →
      setOutputPrintFrequency s tok = Except.error ConfigError.formatError) ∧
    (t ∈ toks → parseCriterion t = none →
      setCriteria s toks = Except.error ConfigError.formatError) ∧
    (t ∈ toks → parsePresolverModel t = none →
      setPresolverModel s toks = Except.error ConfigError.formatError) ∧
    (t ∈ toks → parseHeuristic t = none →
      setHeuristic s toks = Except.error ConfigError.formatError) := by
  refine ⟨?_, ?_, ?_, ?_, ?_, ?_, ?_, ?_⟩
  · intro h; simp [setModel, h]
  · intro h; simp [setSearch, h]
  · intro h; simp [setThPropagator, h]
  · intro h; simp [setOutputFileType, h]
  · intro h; simp [setOutputPrintFrequency, h]
  · intro hm hp
    unfold setCriteria
    rw [mapM_eq_none_of_mem parseCriterion toks t hm hp]
  · intro hm hp
    unfold setPresolverModel
    rw [mapM_eq_none_of_mem parsePresolverModel toks t hm hp]
  · intro hm hp
    unfold setHeuristic
    rw [mapM_eq_none_of_mem parseHeuristic toks t hm hp]

/-- Witness for C9: the token bogus is recognized by none of the eight option
domains, and every setter rejects it with FormatError. -/
theorem unknown_token_format_error_witness :
    setModel defaultSettings "bogus" = Except.error ConfigError.formatError ∧
    setSearch defaultSettings "bogus" = Except.error ConfigError.formatError ∧
    setThPropagator defaultSettings "bogus" = Except.error ConfigError.formatError ∧
    setOutputFileType defaultSettings "bogus" = Except.error ConfigError.formatError ∧
    setOutputPrintFrequency defaultSettings "bogus"
      = Except.error ConfigError.formatError ∧
    setCriteria defaultSettings ["bogus"] = Except.error ConfigError.formatError ∧
    setPresolverModel defaultSettings ["bogus"]
      = Except.error ConfigError.formatError ∧
    setHeuristic defaultSettings ["bogus"] = Except.error ConfigError.formatError := by
  obtain ⟨h1, h2, h3, h4, h5, h6, h7, h8⟩ :=
    unknown_token_format_error defaultSettings "bogus" "bogus" ["bogus"]
  exact ⟨h1 rfl, h2 rfl, h3 rfl, h4 rfl, h5 rfl,
    h6 (by simp) rfl, h7 (by simp) rfl, h8 (by simp) rfl⟩

end DeSyDe
